import Mathlib

/-!
Shallow embedding of `src/argmatch/__init__.py`: the `arg_match`
validation function and the `ArgMatchError` class.

Python strings are modelled as `String`, tuples/lists of strings as
`List String`, `None` as `Option.none`, and raised exceptions as the
`Except` error component.  Python's `re.match(pattern, subject)` is
modelled by a regular-expression engine (a pattern parser and
context-aware Brzozowski derivatives) over a fragment of Python regex
syntax: literal characters, escapes, the dot (which does not match a
newline), character sets with ranges and negation, the quantifiers
including brace counts and the lazy marker, alternation, plain and
non-capturing groups, and the anchors (caret, dollar, backslash-A,
backslash-Z).  A pattern Python rejects with `re.error` parses to an
`invalid` failure; a pattern that is valid Python syntax but whose
semantics the fragment does not capture (Unicode-dependent class
shorthands and word boundaries, coded escapes, group references, group
extensions, possessive quantifiers) parses to an `unsupported` marker,
and every statement about matching below is conditional on the pattern
parsing successfully, so nothing is asserted about such patterns.
`re.match` anchors at the start of the subject only, so a pattern
matches when some prefix of the subject is in its language.
-/

namespace ArgMatch

/-- Regular expressions, the abstract syntax produced by the pattern
parser.  `any` is the dot, which does not match a newline; `aStart` is
the start assertion (both the caret and the backslash-A escape, equal
when the MULTILINE flag is absent, as in the source call); `aEnd` is
the dollar assertion (end of subject or just before one final newline);
`aEndStrict` is the backslash-Z escape (end of subject only); `cls` is
a character set with optional negation. -/
inductive ClsItem : Type
  | single : Char → ClsItem
  | range : Char → Char → ClsItem
deriving DecidableEq, Repr

inductive RE : Type
  | emptyset : RE
  | eps : RE
  | chr : Char → RE
  | any : RE
  | cls : Bool → List ClsItem → RE
  | aStart : RE
  | aEnd : RE
  | aEndStrict : RE
  | cat : RE → RE → RE
  | alt : RE → RE → RE
  | star : RE → RE
deriving DecidableEq, Repr

/-- Whether a character belongs to one item of a character set; ranges
compare code points, as Python does. -/
def clsItemMem (c : Char) : ClsItem → Bool
  | .single a => decide (c = a)
  | .range lo hi => decide (lo ≤ c ∧ c ≤ hi)

/-- Whether a character matches a (possibly negated) character set.  A
negated set matches every character outside the items, the newline
included. -/
def clsMem (neg : Bool) (items : List ClsItem) (c : Char) : Bool :=
  (items.any (clsItemMem c)) != neg

/-- Zero-width assertions make acceptance context-dependent: `prev` is
the character just before the current position (`none` at the start of
the subject, where `re.match` anchors) and `rest` is the unconsumed
suffix.  `nullC` decides whether `r` can match the empty string at this
position. -/
def nullC (prev : Option Char) (rest : List Char) : RE → Bool
  | .emptyset => false
  | .eps => true
  | .chr _ => false
  | .any => false
  | .cls _ _ => false
  | .aStart => decide (prev = none)
  | .aEnd => decide (rest = [] ∨ rest = ['\n'])
  | .aEndStrict => decide (rest = [])
  | .cat r s => nullC prev rest r && nullC prev rest s
  | .alt r s => nullC prev rest r || nullC prev rest s
  | .star _ => true

/-- Brzozowski derivative of `r` by the character `c`, taken at the
context `(prev, rest)` (with `c` the head of `rest`): assertions hold
or fail at the current position and consume nothing; the dot matches
every character except the newline. -/
def derivC (prev : Option Char) (rest : List Char) (c : Char) : RE → RE
  | .emptyset => .emptyset
  | .eps => .emptyset
  | .chr a => if c = a then .eps else .emptyset
  | .any => if c = '\n' then .emptyset else .eps
  | .cls neg items => if clsMem neg items c then .eps else .emptyset
  | .aStart => .emptyset
  | .aEnd => .emptyset
  | .aEndStrict => .emptyset
  | .cat r s =>
      if nullC prev rest r then .alt (.cat (derivC prev rest c r) s) (derivC prev rest c s)
      else .cat (derivC prev rest c r) s
  | .alt r s => .alt (derivC prev rest c r) (derivC prev rest c s)
  | .star r => .cat (derivC prev rest c r) (.star r)

/-- Whether `r` matches some prefix of the remaining subject `rest`,
`prev` being the character consumed just before; this is the semantics
of Python `re.match(r, s) is not None` when started with `prev = none`
on the whole subject (anchored at the start, no implicit end anchor). -/
def reAccept : RE → Option Char → List Char → Bool
  | r, prev, [] => nullC prev [] r
  | r, prev, c :: rest =>
      nullC prev (c :: rest) r || reAccept (derivC prev (c :: rest) c r) (some c) rest

/-- How parsing a pattern can stop short of a regex: `invalid` models a
pattern Python itself rejects with `re.error`; `unsupported` marks a
pattern that is valid Python regex syntax but whose semantics lies
outside the modelled fragment (Unicode-dependent class shorthands and
word boundaries, coded escapes, group references, lookarounds and other
group extensions, possessive quantifiers).  The model never asserts
anything about an unsupported pattern: it stops with a marker error
instead. -/
inductive ParseFail : Type
  | invalid : String → ParseFail
  | unsupported : String → ParseFail
deriving DecidableEq, Repr

/-- A top-level escape: recognized control escapes and the two anchors
give their regex; class shorthands, word boundaries, coded escapes and
group references are outside the fragment; an unknown escape of another
ASCII letter is an error, as in Python; any other escaped character is
that literal character. -/
def escTop (c : Char) : Except ParseFail RE :=
  if c = 'A' then .ok .aStart
  else if c = 'Z' then .ok .aEndStrict
  else if c = 'n' then .ok (.chr '\n')
  else if c = 't' then .ok (.chr '\t')
  else if c = 'r' then .ok (.chr '\r')
  else if c = 'f' then .ok (.chr '\x0c')
  else if c = 'v' then .ok (.chr '\x0b')
  else if c = 'a' then .ok (.chr '\x07')
  else if c = 'b' ∨ c = 'B' ∨ c = 'd' ∨ c = 'D' ∨ c = 'w' ∨ c = 'W' ∨ c = 's' ∨ c = 'S' then
    .error (.unsupported "class or boundary escape outside the modelled fragment")
  else if c = 'x' ∨ c = 'u' ∨ c = 'U' ∨ c = 'N' then
    .error (.unsupported "coded escape outside the modelled fragment")
  else if c.isDigit then
    .error (.unsupported "group reference outside the modelled fragment")
  else if c.isAlpha then .error (.invalid "bad escape")
  else .ok (.chr c)

/-- An escape inside a character set: as at top level, except that the
anchors are plain bad escapes there and backslash-b is the backspace
character. -/
def escCls (c : Char) : Except ParseFail Char :=
  if c = 'n' then .ok '\n'
  else if c = 't' then .ok '\t'
  else if c = 'r' then .ok '\r'
  else if c = 'f' then .ok '\x0c'
  else if c = 'v' then .ok '\x0b'
  else if c = 'a' then .ok '\x07'
  else if c = 'b' then .ok '\x08'
  else if c = 'd' ∨ c = 'D' ∨ c = 'w' ∨ c = 'W' ∨ c = 's' ∨ c = 'S' then
    .error (.unsupported "class shorthand in a set outside the modelled fragment")
  else if c = 'x' ∨ c = 'u' ∨ c = 'U' ∨ c = 'N' then
    .error (.unsupported "coded escape outside the modelled fragment")
  else if c.isDigit then
    .error (.unsupported "octal escape outside the modelled fragment")
  else if c.isAlpha then .error (.invalid "bad escape")
  else .ok c

/-- The value of a list of decimal digits. -/
def digitsToNat (ds : List Char) : Nat :=
  ds.foldl (fun n c => 10 * n + (c.toNat - 48)) 0

/-- Try to read a brace quantifier after its opening brace, as CPython
does: digits, an optional comma with further digits, and the closing
brace; a lone pair of braces with no digits and no comma is not a
quantifier (the brace is then a literal).  Returns the minimum, the
optional maximum and the remaining input. -/
def parseQuantSpec (cs : List Char) : Option (Nat × Option Nat × List Char) :=
  let p := cs.span (fun c => c.isDigit)
  match p.2 with
  | '}' :: rest =>
      if p.1.isEmpty then none
      else some (digitsToNat p.1, some (digitsToNat p.1), rest)
  | ',' :: rest =>
      let q := rest.span (fun c => c.isDigit)
      (match q.2 with
       | '}' :: rest2 =>
           some (digitsToNat p.1,
             if q.1.isEmpty then none else some (digitsToNat q.1), rest2)
       | _ => none)
  | _ => none

/-- Expansion of a brace quantifier: `lo` mandatory copies followed by
a star (no maximum) or by `hi - lo` optional copies; an inverted range
is an error, as in Python. -/
def repeatRE (r : RE) (lo : Nat) (hi : Option Nat) : Except ParseFail RE :=
  match hi with
  | none => .ok (RE.cat ((List.replicate lo r).foldr RE.cat RE.eps) (RE.star r))
  | some h =>
      if h < lo then .error (.invalid "min repeat greater than max repeat")
      else .ok (RE.cat ((List.replicate lo r).foldr RE.cat RE.eps)
        ((List.replicate (h - lo) (RE.alt RE.eps r)).foldr RE.cat RE.eps))

/-- Whether a regex node is a zero-width assertion; quantifying one is
an error in Python. -/
def isAssert : RE → Bool
  | .aStart => true
  | .aEnd => true
  | .aEndStrict => true
  | _ => false

/-- What may follow one quantifier: a lazy marker (same language, so it
is absorbed), then any further quantifier is a multiple-repeat error; a
plus right after a quantifier is a possessive quantifier, valid in
newer Pythons with a different language, hence outside the fragment. -/
def quantTail (r : RE) (cs : List Char) : Except ParseFail (RE × List Char) :=
  match cs with
  | '?' :: cs2 =>
      (match cs2 with
       | '*' :: _ => .error (.invalid "multiple repeat")
       | '+' :: _ => .error (.invalid "multiple repeat")
       | '?' :: _ => .error (.invalid "multiple repeat")
       | '{' :: cs3 =>
           (match parseQuantSpec cs3 with
            | some _ => .error (.invalid "multiple repeat")
            | none => .ok (r, cs2))
       | _ => .ok (r, cs2))
  | '*' :: _ => .error (.invalid "multiple repeat")
  | '+' :: _ => .error (.unsupported "possessive quantifier outside the modelled fragment")
  | '{' :: cs2 =>
      (match parseQuantSpec cs2 with
       | some _ => .error (.invalid "multiple repeat")
       | none => .ok (r, cs))
  | _ => .ok (r, cs)

/-- Items of a character set, after the optional negation: a closing
bracket is a member when it comes first, ranges compare their explicit
endpoints, a dangling minus is literal, and a set that never closes is
an error, as in Python. -/
def parseClsItems (fuel : Nat) (first : Bool) (cs : List Char) (acc : List ClsItem) :
    Except ParseFail (List ClsItem × List Char) :=
  match fuel, cs with
  | 0, _ => .error (.unsupported "internal fuel exhausted")
  | _, [] => .error (.invalid "unterminated character set")
  | fuel + 1, ']' :: rest =>
      if first then withStart fuel ']' rest acc
      else .ok (acc.reverse, rest)
  | _ + 1, '\\' :: [] => .error (.invalid "bad escape (end of pattern)")
  | fuel + 1, '\\' :: e :: rest => do
      let c ← escCls e
      withStart fuel c rest acc
  | fuel + 1, c :: rest => withStart fuel c rest acc
where
  /-- Continue after the first character `c` of an item: either a range
  (a minus not followed by the closing bracket) or a single member. -/
  withStart (fuel : Nat) (c : Char) (cs : List Char) (acc : List ClsItem) :
      Except ParseFail (List ClsItem × List Char) :=
    match cs with
    | '-' :: ']' :: rest => .ok ((ClsItem.single '-' :: ClsItem.single c :: acc).reverse, rest)
    | '-' :: '\\' :: [] => .error (.invalid "bad escape (end of pattern)")
    | '-' :: '\\' :: e :: rest => do
        let hi ← escCls e
        if c ≤ hi then parseClsItems fuel false rest (ClsItem.range c hi :: acc)
        else .error (.invalid "bad character range")
    | '-' :: hi :: rest =>
        if c ≤ hi then parseClsItems fuel false rest (ClsItem.range c hi :: acc)
        else .error (.invalid "bad character range")
    | _ => parseClsItems fuel false cs (ClsItem.single c :: acc)

/-- A character set after its opening bracket: optional negation, then
items up to the closing bracket. -/
def parseCls (fuel : Nat) (cs : List Char) : Except ParseFail (RE × List Char) :=
  match cs with
  | '^' :: rest => do
      let (items, rest2) ← parseClsItems fuel true rest []
      .ok (RE.cls true items, rest2)
  | _ => do
      let (items, rest2) ← parseClsItems fuel true cs []
      .ok (RE.cls false items, rest2)

mutual

/-- Parse an alternation (`a|b|c`), the lowest-precedence level. -/
def parseAlt : Nat → List Char → Except ParseFail (RE × List Char)
  | 0, _ => .error (.unsupported "internal fuel exhausted")
  | fuel + 1, cs => do
    let (r, cs1) ← parseCat fuel cs
    match cs1 with
    | '|' :: cs2 => do
        let (s, cs3) ← parseAlt fuel cs2
        pure (RE.alt r s, cs3)
    | _ => pure (r, cs1)

/-- Parse a concatenation of repeated atoms, stopping at the end of the
input, at a closing bracket or at an alternation bar. -/
def parseCat : Nat → List Char → Except ParseFail (RE × List Char)
  | 0, _ => .error (.unsupported "internal fuel exhausted")
  | fuel + 1, cs =>
    match cs with
    | [] => pure (RE.eps, [])
    | ')' :: _ => pure (RE.eps, cs)
    | '|' :: _ => pure (RE.eps, cs)
    | _ => do
      let (r, cs1) ← parseRep fuel cs
      let (s, cs2) ← parseCat fuel cs1
      pure (RE.cat r s, cs2)

/-- Parse an atom with its optional quantifier.  A quantifier on a
zero-width assertion is an error, and what follows a quantifier goes
through `quantTail` (lazy marker, multiple repeat, possessive). -/
def parseRep : Nat → List Char → Except ParseFail (RE × List Char)
  | 0, _ => .error (.unsupported "internal fuel exhausted")
  | fuel + 1, cs => do
    let (r, cs1) ← parseAtom fuel cs
    match cs1 with
    | '*' :: cs2 =>
        if isAssert r then .error (.invalid "nothing to repeat")
        else quantTail (RE.star r) cs2
    | '+' :: cs2 =>
        if isAssert r then .error (.invalid "nothing to repeat")
        else quantTail (RE.cat r (RE.star r)) cs2
    | '?' :: cs2 =>
        if isAssert r then .error (.invalid "nothing to repeat")
        else quantTail (RE.alt RE.eps r) cs2
    | '{' :: cs2 =>
        (match parseQuantSpec cs2 with
         | none => .ok (r, cs1)
         | some (lo, hi, cs3) =>
             if isAssert r then .error (.invalid "nothing to repeat")
             else do
               let rq ← repeatRE r lo hi
               quantTail rq cs3)
    | _ => .ok (r, cs1)

/-- Parse a single atom: a group (plain or non-capturing), a dot, an
anchor, a character set, an escape or a literal character.  A brace
that reads as a quantifier with nothing before it is an error, as in
Python; a brace that does not is a literal. -/
def parseAtom : Nat → List Char → Except ParseFail (RE × List Char)
  | 0, _ => .error (.unsupported "internal fuel exhausted")
  | fuel + 1, cs =>
    match cs with
    | [] => .error (.invalid "internal: empty atom")
    | '(' :: '?' :: ':' :: cs1 => do
      let (r, cs2) ← parseAlt fuel cs1
      (match cs2 with
       | ')' :: cs3 => pure (r, cs3)
       | _ => .error (.invalid "missing ), unterminated subpattern"))
    | '(' :: '?' :: _ =>
      .error (.unsupported "group extension outside the modelled fragment")
    | '(' :: cs1 => do
      let (r, cs2) ← parseAlt fuel cs1
      (match cs2 with
       | ')' :: cs3 => pure (r, cs3)
       | _ => .error (.invalid "missing ), unterminated subpattern"))
    | '.' :: cs1 => pure (RE.any, cs1)
    | '^' :: cs1 => pure (RE.aStart, cs1)
    | '$' :: cs1 => pure (RE.aEnd, cs1)
    | '[' :: cs1 => parseCls fuel cs1
    | '\\' :: [] => .error (.invalid "bad escape (end of pattern)")
    | '\\' :: e :: cs1 => do
      let r ← escTop e
      pure (r, cs1)
    | '*' :: _ => .error (.invalid "nothing to repeat")
    | '+' :: _ => .error (.invalid "nothing to repeat")
    | '?' :: _ => .error (.invalid "nothing to repeat")
    | '{' :: cs1 =>
      (match parseQuantSpec cs1 with
       | some _ => .error (.invalid "nothing to repeat")
       | none => pure (RE.chr '{', cs1))
    | c :: cs1 => pure (RE.chr c, cs1)

end

/-- Compile a whole pattern string, modelling `re.compile`; a leftover
closing bracket is an unbalanced-parenthesis error, as in Python. -/
def parsePattern (p : String) : Except ParseFail RE :=
  match parseAlt (8 * p.length + 16) p.toList with
  | .error m => .error m
  | .ok (r, []) => .ok r
  | .ok (_, _ :: _) => .error (.invalid "unbalanced parenthesis")

/-- Boolean success test for `Except`. -/
def exOk {ε α : Type} : Except ε α → Bool
  | .ok _ => true
  | .error _ => false

/-- An argument value as `arg_match` receives it: a bare string or a
sequence of strings.  Python tuples and lists of strings are both
modelled as `List String`; `None` is `Option.none` at the call sites. -/
inductive StrOrSeq : Type
  | str : String → StrOrSeq
  | seq : List String → StrOrSeq
deriving DecidableEq, Repr

/-- Python truthiness of an optional string-or-sequence value: `None`,
the empty string and the empty sequence are falsy. -/
def pyTruthy : Option StrOrSeq → Bool
  | none => false
  | some (.str s) => decide (s ≠ "")
  | some (.seq l) => decide (l ≠ [])

/-- The sequence a value normalizes to: a bare string is wrapped into a
one-element tuple, mirroring the `isinstance` wrap in the source. -/
def optSeq : Option StrOrSeq → List String
  | none => []
  | some (.str s) => [s]
  | some (.seq l) => l

/-- The `ArgMatchError` value: `n` is the stored match count (`_n`),
`_args` the stored optional sequence of matches or original choices. -/
structure ArgMatchError : Type where
  n : Int
  _args : Option (List String)
deriving DecidableEq, Repr

/-- The `args` property of `ArgMatchError`: `None` when the stored
sequence is absent or empty, the stored sequence otherwise. -/
def ArgMatchError.args (e : ArgMatchError) : Option (List String) :=
  match e._args with
  | none => none
  | some l => if l = [] then none else some l

/-- Python truthiness of an optional sequence of strings. -/
def seqTruthy : Option (List String) → Bool
  | none => false
  | some l => decide (l ≠ [])

/-- The `ArgMatchError.__init__` constructor: stores `n` and `args`,
then raises `ValueError` when `n` is negative, or when `args` is
non-empty, `n` is non-zero and `len(args)` differs from `n`. -/
def mkArgMatchError (n : Int) (args : Option (List String)) : Except String ArgMatchError :=
  let e : ArgMatchError := ⟨n, args⟩
  if e.n < 0 then .error "'n' must be a positive integer"
  else if seqTruthy e.args && decide (e.n ≠ 0) && decide (e.n ≠ ((args.getD []).length : Int)) then
    .error "'args' must be of length 'n' when provided"
  else .ok e

/-- The `ArgMatchError.__str__` rendering.  With `self.n` truthy it
reports too many matches, appending the items when present; with
`self.n` zero it reports no match, but `len(self.args)` is evaluated
unconditionally, so an absent `args` raises `TypeError` (modelled as
the error case) before any message is produced. -/
def ArgMatchError.render (e : ArgMatchError) : Except String String :=
  if e.n ≠ 0 then
    let msg : String := "Too many matches (" ++ toString e.n ++ ")"
    .ok (match e.args with
      | some l => msg ++ ", found '" ++ String.intercalate "', '" l ++ "'"
      | none => msg)
  else
    let msg : String := "No argument match found"
    match e.args with
    | none => .error "TypeError: object of type NoneType has no len()"
    | some l =>
      if l.length = 1 then .ok (msg ++ ", should be '" ++ l.headD "" ++ "'")
      else if l ≠ [] then .ok (msg ++ ", should be one of '" ++ String.intercalate "', '" l ++ "'")
      else .ok msg

/-- An exception escaping `arg_match`.  `reError` is Python's
`re.error` on an invalid pattern; `unmodelled` is not a Python
exception but the marker with which the model stops when a candidate
pattern is valid Python regex syntax outside the modelled fragment, so
that the model never asserts behavior it does not capture. -/
inductive PyError : Type
  | valueError : String → PyError
  | argMatchError : ArgMatchError → PyError
  | reError : String → PyError
  | unmodelled : String → PyError
  | callerIntrospection : PyError
deriving DecidableEq, Repr

/-- A raise site `raise ArgMatchError(n=..., args=...)`: the constructor
itself can raise `ValueError`, which would then be the escaping
exception. -/
def raiseArgMatchError (n : Int) (args : Option (List String)) : PyError :=
  match mkArgMatchError n args with
  | .ok e => .argMatchError e
  | .error m => .valueError m

/-- The result of a successful `arg_match` call: a single choice or the
full sequence of matches. -/
inductive MatchResult : Type
  | single : String → MatchResult
  | multi : List String → MatchResult
deriving DecidableEq, Repr

/-- The strings carried by a result. -/
def MatchResult.elems : MatchResult → List String
  | .single s => [s]
  | .multi l => l

/-- Model of `re.match` calls made for one candidate element `y`:
Python compiles `y` lazily at the first `re.match(y, x)` call, so with
no choices to test an invalid pattern raises nothing; otherwise an
invalid pattern raises `re.error` and a valid one selects, in order,
the choices some prefix of which it matches. -/
def matchesFor (y : String) (cs : List String) : Except PyError (List String) :=
  match cs with
  | [] => .ok []
  | _ :: _ =>
    match parsePattern y with
    | .error (.invalid m) => .error (.reError m)
    | .error (.unsupported m) => .error (.unmodelled m)
    | .ok r => .ok (cs.filter (fun x => reAccept r none x.toList))

/-- Model of `tuple(x for y in arg for x in choices if _re.match(y, x))`:
candidate elements are iterated in order and, for each, all choices in
order; encounter order is preserved and nothing is deduplicated. -/
def computeMatches : List String → List String → Except PyError (List String)
  | [], _ => .ok []
  | y :: ys, cs => do
    let m ← matchesFor y cs
    let rest ← computeMatches ys cs
    pure (m ++ rest)

/-- The `arg_match` function (source lines 115-145).  When `choices` is
falsy the source inspects the calling stack frame and the caller's
source text (lines 116-126) to recover the defaults; that control path
depends on the call site, not on the arguments, and is represented here
only by the distinguished `callerIntrospection` error value. -/
def arg_match (arg choices : Option StrOrSeq) (multiple : Bool) : Except PyError MatchResult :=
  if pyTruthy choices = false then .error .callerIntrospection
  else if pyTruthy arg = false then .ok (.single ((optSeq choices).headD ""))
  else if multiple = false ∧ optSeq arg = optSeq choices then
    .ok (.single ((optSeq arg).headD ""))
  else if multiple = false ∧ 1 < (optSeq arg).length then
    .error (.valueError "'arg' must be of length 1")
  else
    match computeMatches (optSeq arg) (optSeq choices) with
    | .error e => .error e
    | .ok ms =>
      if ms = [] then .error (raiseArgMatchError 0 (some (optSeq choices)))
      else if 1 < ms.length ∧ multiple = false then
        .error (raiseArgMatchError (ms.length : Int) (some ms))
      else if ms.length = 1 then .ok (.single (ms.headD ""))
      else .ok (.multi ms)

theorem matchesFor_subset {y : String} {cs m : List String}
    (h : matchesFor y cs = .ok m) : ∀ x ∈ m, x ∈ cs := by
  cases cs with
  | nil =>
    simp only [matchesFor] at h
    cases h
    intro x hx
    cases hx
  | cons c cs' =>
    simp only [matchesFor] at h
    cases hp : parsePattern y with
    | error e =>
      rw [hp] at h
      cases e with
      | invalid m2 => cases h
      | unsupported m2 => cases h
    | ok r =>
      rw [hp] at h
      cases h
      intro x hx
      exact List.mem_of_mem_filter hx

theorem computeMatches_subset {argL cs m : List String}
    (h : computeMatches argL cs = .ok m) : ∀ x ∈ m, x ∈ cs := by
  induction argL generalizing m with
  | nil =>
    simp only [computeMatches] at h
    cases h
    intro x hx
    cases hx
  | cons y ys ih =>
    simp only [computeMatches] at h
    cases h1 : matchesFor y cs with
    | error e => rw [h1] at h; cases h
    | ok m1 =>
      rw [h1] at h
      cases h2 : computeMatches ys cs with
      | error e => rw [h2] at h; cases h
      | ok m2 =>
        rw [h2] at h
        have h3 : (Except.ok (m1 ++ m2) : Except PyError (List String)) = .ok m := h
        cases h3
        intro x hx
        rcases List.mem_append.mp hx with hx1 | hx2
        · exact matchesFor_subset h1 x hx1
        · exact ih h2 x hx2

/-- C6: for every non-empty sequence of choices and every value of
`multiple`, when the candidate is absent or empty (falsy), `arg_match`
returns the first declared choice as a single value. -/
theorem C6_empty_candidate_returns_first_choice (c0 : String) (rest : List String)
    (arg : Option StrOrSeq) (multiple : Bool) (ha : pyTruthy arg = false) :
    arg_match arg (some (.seq (c0 :: rest))) multiple = .ok (.single c0) := by
  have h1 : ¬ (pyTruthy (some (.seq (c0 :: rest))) = false) := by simp [pyTruthy]
  simp only [arg_match]
  rw [if_neg h1, if_pos ha]
  rfl

/-- Witness for C6 at a concrete input: an absent candidate against the
choices `("aa", "ab")` yields `"aa"`. -/
theorem C6_empty_candidate_returns_first_choice_witness :
    arg_match none (some (.seq ["aa", "ab"])) false = .ok (.single "aa") :=
  C6_empty_candidate_returns_first_choice "aa" ["ab"] none false rfl

/-- C3: with `multiple` false, a candidate sequence equal to the choices
sequence returns the first choice (the pass-through fast path, evaluated
before the single-element constraint, so it never raises for a full
pass-through of length greater than one), and otherwise a candidate with
more than one element fails with `ValueError` (the InvalidArgument
kind). -/
theorem C3_passthrough_and_length_guard (c0 : String) (rest argL : List String) :
    (argL = c0 :: rest →
      arg_match (some (.seq argL)) (some (.seq (c0 :: rest))) false = .ok (.single c0)) ∧
    (argL ≠ c0 :: rest → 1 < argL.length →
      arg_match (some (.seq argL)) (some (.seq (c0 :: rest))) false =
        .error (.valueError "'arg' must be of length 1")) := by
  constructor
  · intro hEq
    subst hEq
    have h1 : ¬ (pyTruthy (some (.seq (c0 :: rest))) = false) := by simp [pyTruthy]
    simp only [arg_match]
    rw [if_neg h1, if_neg h1, if_pos (show True ∧ True from ⟨trivial, trivial⟩)]
    rfl
  · intro hne hlen
    have ha : argL ≠ [] := by
      intro h
      rw [h] at hlen
      simp at hlen
    have h1 : ¬ (pyTruthy (some (.seq (c0 :: rest))) = false) := by simp [pyTruthy]
    have h2 : ¬ (pyTruthy (some (.seq argL)) = false) := by simp [pyTruthy, ha]
    have h3 : ¬ (True ∧
        optSeq (some (.seq argL)) = optSeq (some (.seq (c0 :: rest)))) := by
      rintro ⟨-, he⟩
      exact hne (by simpa [optSeq] using he)
    have h4 : (True ∧ 1 < (optSeq (some (.seq argL))).length) :=
      ⟨trivial, by simpa [optSeq] using hlen⟩
    simp only [arg_match]
    rw [if_neg h1, if_neg h2, if_neg h3, if_pos h4]

/-- Witness for C3 at a concrete input: passing the full choices
sequence `("aa", "ab")` through as the candidate returns `"aa"` and does
not raise, although the candidate has two elements. -/
theorem C3_passthrough_and_length_guard_witness :
    arg_match (some (.seq ["aa", "ab"])) (some (.seq ["aa", "ab"])) false =
      .ok (.single "aa") :=
  (C3_passthrough_and_length_guard "aa" ["ab"] ["aa", "ab"]).1 rfl

/-- C10: every string returned by a successful `arg_match` call, whether
as a single value or inside a returned sequence, is an element of the
declared choices. -/
theorem C10_result_within_choices (choicesL : List String) (arg : Option StrOrSeq)
    (multiple : Bool) (r : MatchResult) (hc : choicesL ≠ [])
    (h : arg_match arg (some (.seq choicesL)) multiple = .ok r) :
    r.elems.all (fun x => decide (x ∈ choicesL)) = true := by
  rw [List.all_eq_true]
  suffices key : ∀ x ∈ r.elems, x ∈ choicesL by
    intro x hx
    exact decide_eq_true (key x hx)
  obtain ⟨c0, cs0, rfl⟩ : ∃ c0 cs0, choicesL = c0 :: cs0 := by
    cases choicesL with
    | nil => exact absurd rfl hc
    | cons a b => exact ⟨a, b, rfl⟩
  simp only [arg_match] at h
  rw [if_neg (by simp [pyTruthy])] at h
  by_cases harg : pyTruthy arg = false
  · rw [if_pos harg] at h
    injection h with h2
    subst h2
    simp [MatchResult.elems, optSeq]
  · rw [if_neg harg] at h
    split at h
    next hpass =>
      injection h with h2
      subst h2
      simp only [MatchResult.elems]
      intro x hx
      rcases List.mem_singleton.mp hx with rfl
      rw [hpass.2]
      simp [optSeq]
    next hpass =>
      split at h
      next hlen => exact Except.noConfusion h
      next hlen =>
        split at h
        next e heq => exact Except.noConfusion h
        next ms heq =>
          have hsub : ∀ x ∈ ms, x ∈ c0 :: cs0 := by
            have hs := computeMatches_subset heq
            simpa [optSeq] using hs
          by_cases hempty : ms = []
          · rw [if_pos hempty] at h
            exact Except.noConfusion h
          · rw [if_neg hempty] at h
            by_cases htoo : 1 < ms.length ∧ multiple = false
            · rw [if_pos htoo] at h
              exact Except.noConfusion h
            · rw [if_neg htoo] at h
              by_cases hone : ms.length = 1
              · rw [if_pos hone] at h
                injection h with h2
                subst h2
                simp only [MatchResult.elems]
                intro x hx
                rcases List.mem_singleton.mp hx with rfl
                obtain ⟨m0, ms', rfl⟩ : ∃ m0 ms', ms = m0 :: ms' := by
                  cases ms with
                  | nil => exact absurd rfl hempty
                  | cons a b => exact ⟨a, b, rfl⟩
                exact hsub m0 (List.mem_cons_self _ _)
              · rw [if_neg hone] at h
                injection h with h2
                subst h2
                exact hsub

/-- Witness for C10 at a concrete input: the multi-match result for the
candidate `"a"` against `("aa", "ab")` stays within the choices. -/
theorem C10_result_within_choices_witness :
    (MatchResult.multi ["aa", "ab"]).elems.all
      (fun x => decide (x ∈ (["aa", "ab"] : List String))) = true :=
  C10_result_within_choices ["aa", "ab"] (some (.str "a")) true
    (.multi ["aa", "ab"]) (by decide) (by rfl)

/-- C7: evaluations of the `__str__` rendering on validly constructed
errors.  The three populated cases produce exactly the documented
strings, but the `matchCount = 0, items absent` case raises `TypeError`
(the source calls `len(self.args)` on `None`) instead of returning
"No argument match found" as documented; `MatchError(0)` itself
constructs fine. -/
theorem C7_describe_evaluations :
    mkArgMatchError 0 none = .ok ⟨0, none⟩ ∧
    ArgMatchError.render ⟨0, none⟩ =
      .error "TypeError: object of type NoneType has no len()" ∧
    ArgMatchError.render ⟨0, some ["x"]⟩ =
      .ok "No argument match found, should be 'x'" ∧
    ArgMatchError.render ⟨0, some ["x", "y"]⟩ =
      .ok "No argument match found, should be one of 'x', 'y'" ∧
    ArgMatchError.render ⟨2, some ["aa", "ab"]⟩ =
      .ok "Too many matches (2), found 'aa', 'ab'" ∧
    ArgMatchError.render ⟨3, none⟩ = .ok "Too many matches (3)" :=
  ⟨rfl, rfl, rfl, rfl, rfl, rfl⟩

/-- C8: constructing `ArgMatchError(n, args)` fails exactly when `n` is
negative, or when `args` is present and non-empty, `n` is positive and
`len(args)` differs from `n`; every other combination constructs
successfully. -/
theorem C8_constructor_validation (n : Int) (args : Option (List String)) :
    exOk (mkArgMatchError n args) = false ↔
      (n < 0 ∨ ∃ l, args = some l ∧ l ≠ [] ∧ 0 < n ∧ n ≠ (l.length : Int)) := by
  simp only [mkArgMatchError]
  by_cases h1 : n < 0
  · rw [if_pos h1]
    simp [exOk, h1]
  · rw [if_neg h1]
    have hn0 : (0 : Int) ≤ n := not_lt.mp h1
    by_cases h2 : (seqTruthy (ArgMatchError.args ⟨n, args⟩) && decide (n ≠ 0) &&
        decide (n ≠ ((args.getD []).length : Int))) = true
    · rw [if_pos h2]
      simp only [exOk, true_iff]
      right
      simp only [Bool.and_eq_true] at h2
      obtain ⟨⟨h5, h6⟩, h4⟩ := h2
      cases args with
      | none => simp [ArgMatchError.args, seqTruthy] at h5
      | some l =>
        refine ⟨l, rfl, ?_, ?_, ?_⟩
        · intro hl
          subst hl
          simp [ArgMatchError.args, seqTruthy] at h5
        · rcases lt_or_eq_of_le hn0 with h | h
          · exact h
          · exfalso
            rw [← h] at h6
            simp at h6
        · have h7 := of_decide_eq_true h4
          simpa using h7
    · rw [if_neg h2]
      simp only [exOk]
      constructor
      · intro h
        exact absurd h (by decide)
      · rintro (hlt | ⟨l, rfl, hl, hpos, hne⟩)
        · exact absurd hlt h1
        · exfalso
          apply h2
          simp only [Bool.and_eq_true]
          refine ⟨⟨?_, ?_⟩, ?_⟩
          · simp [ArgMatchError.args, seqTruthy, hl]
          · exact decide_eq_true (ne_of_gt hpos)
          · exact decide_eq_true (by simpa using hne)

end ArgMatch
